import Mathlib

/-!
Shallow embedding of src/vital_farms_monitor.py.

Strings are modelled through their character lists (Python strings are
sequences of code points, so lowercasing, the `in` operator, slicing and
stripping are per-character operations).  Every call into the
browser-automation library (playwright) is an external effect; each such
call site is a field of an environment record holding the outcome the
library returned: Except.ok with the returned data, or Except.error with
the message of the exception it raised.  The Python try/except structure
is then translated into pattern matches on those outcomes, following the
source line by line.
-/

namespace VitalFarms

/-- Does the list `needle` occur at the head of `hay`?  Helper for `pyIn`. -/
def startsWithChars : List Char → List Char → Bool
  | [], _ => true
  | _ :: _, [] => false
  | a :: as, b :: bs => a == b && startsWithChars as bs

/-- Does `needle` occur contiguously anywhere in `hay`?  Helper for `pyIn`. -/
def occursInChars (needle : List Char) : List Char → Bool
  | [] => needle.isEmpty
  | b :: bs => startsWithChars needle (b :: bs) || occursInChars needle bs

/-- Model of the Python substring test `needle in hay`. -/
def pyIn (needle hay : String) : Bool :=
  occursInChars needle.data hay.data

/-- Model of Python lowercasing, `s.lower()` (per-character). -/
def pyLower (s : String) : String :=
  ⟨s.data.map Char.toLower⟩

/-- Model of Python slicing `s[:n]` (first `n` characters). -/
def pySlice (s : String) (n : Nat) : String :=
  ⟨s.data.take n⟩

/-- Model of Python `s.strip()`: whitespace removed from both ends. -/
def pyStrip (s : String) : String :=
  ⟨((s.data.dropWhile Char.isWhitespace).reverse.dropWhile Char.isWhitespace).reverse⟩

/-- Model of Python `s.split(chr(10))[0]`: the text before the first
newline character. -/
def firstLine (s : String) : String :=
  ⟨s.data.takeWhile (fun c => c != '\n')⟩

/-- The ZIP_CODES table (lines 16-27).  A Python dict preserves insertion
order, so it is modelled as an association list in source order. -/
def ZIP_CODES : List (String × String) :=
  [("94301", "Palo Alto, CA"),
   ("90210", "Beverly Hills, CA"),
   ("94024", "Los Altos, CA"),
   ("10019", "Manhattan, NYC"),
   ("10583", "Scarsdale, NY"),
   ("78746", "Austin, TX"),
   ("77005", "Houston, TX"),
   ("02138", "Cambridge, MA"),
   ("20816", "Bethesda, MD"),
   ("98112", "Seattle, WA")]

/-- SEARCH_TERM (line 29). -/
def SEARCH_TERM : String := "Vital Farms eggs"

/-- One availability record: the dict built at lines 197-205 (and the
sentinel dicts at lines 217-225, 231-239, 243-251). -/
structure Record where
  timestamp : String
  zip_code : String
  area : String
  product : String
  price : String
  availability : String
  store : String
deriving DecidableEq

/-- One product-card element as the extractor sees it (lines 158-212).
Each field holds the outcome of the corresponding playwright call:
`inner_text` is `product.inner_text()` (line 161); `price_elem` is the
price sub-element query plus its `inner_text()` (lines 168-170), where
`ok none` means no sub-element matched; `inner_html` is
`product.inner_html()` (line 178); `store_elem` likewise for the store
sub-element query plus its `inner_text()` (lines 191-193). -/
structure ProductElem where
  inner_text : Except String String
  price_elem : Except String (Option String)
  inner_html : Except String String
  store_elem : Except String (Option String)

/-- Processing of one product element (the per-product loop body,
lines 159-212).  Returns `none` when the element contributes no record:
either `inner_text()` raised (caught at line 210, `continue`) or the
name filter at line 164 rejects it.  The three inner try/except blocks
(price, availability, store) each fall back to their default on any
error. -/
def processProduct (now zip_code area_name : String) (p : ProductElem) :
    Option Record :=
  match p.inner_text with
  | .error _ => none
  | .ok product_name =>
    if pyIn "vital farms" (pyLower product_name) then
      let price : String :=
        match p.price_elem with
        | .ok (some s) => pyStrip s
        | _ => "N/A"
      let availability : String :=
        match p.inner_html with
        | .ok html =>
          let product_html := pyLower html
          if pyIn "out of stock" product_html || pyIn "unavailable" product_html then
            "Out of Stock"
          else if pyIn "add to cart" product_html || pyIn "add" product_html then
            "In Stock"
          else
            "Available"
        | .error _ => "Unknown"
      let store : String :=
        match p.store_elem with
        | .ok (some s) => pyStrip s
        | _ => "Multiple Stores"
      some { timestamp := now, zip_code := zip_code, area := area_name,
             product := firstLine product_name, price := price,
             availability := availability, store := store }
    else
      none

/-- The sentinel record appended when no Vital Farms product passed the
filter (lines 217-225). -/
def notFoundRecord (now zip_code area_name : String) : Record :=
  { timestamp := now, zip_code := zip_code, area := area_name,
    product := "Vital Farms (not found in search)", price := "N/A",
    availability := "Not Found", store := "N/A" }

/-- The sentinel record appended when the extraction try-block raised
(lines 231-239); `e` is `str(e)`. -/
def scrapingErrorRecord (now zip_code area_name e : String) : Record :=
  { timestamp := now, zip_code := zip_code, area := area_name,
    product := "Error", price := "N/A",
    availability := "Scraping Error: " ++ pySlice e 50, store := "N/A" }

/-- The sentinel record appended by the outer exception handler
(lines 243-251). -/
def criticalErrorRecord (now zip_code area_name e : String) : Record :=
  { timestamp := now, zip_code := zip_code, area := area_name,
    product := "Critical Error", price := "N/A",
    availability := "Error: " ++ pySlice e 50, store := "N/A" }

/-- Environment of one call to check_instacart_availability: the outcome
of each external call site inside it.
* `gotoHome`: `page.goto` on the storefront homepage (line 64);
* `zipPhase`: the whole ZIP-setting try-block body (lines 69-103);
* `searchPhase`: the whole search try-block body (lines 111-134);
* `screenshot`: `page.screenshot` (line 145);
* `waitProducts`: `page.wait_for_selector` plus `query_selector_all`
  (lines 151-154), with the product elements on success. -/
structure Env where
  gotoHome : Except String Unit
  zipPhase : Except String Unit
  searchPhase : Except String Unit
  screenshot : Except String Unit
  waitProducts : Except String (List ProductElem)

/-- The extraction try-block (lines 149-239): on a successful wait,
the first 10 products are processed and, if no record resulted, the
not-found sentinel is appended (lines 214-225); if the wait raised, the
scraping-error sentinel is the only record (lines 227-239). -/
def extractPhase (now zip_code area_name : String)
    (wait : Except String (List ProductElem)) : List Record :=
  match wait with
  | .error e => [scrapingErrorRecord now zip_code area_name e]
  | .ok products =>
    let results := (products.take 10).filterMap (processProduct now zip_code area_name)
    if results.isEmpty then [notFoundRecord now zip_code area_name] else results

/-- Continuation of the check after the ZIP-setting phase: the search
try-block.  An exception in the search phase closes the browser and
returns the results accumulated so far, which are still empty
(lines 136-139); otherwise the screenshot is taken (line 145, inside the
outer try only, so an exception there reaches the outer handler) and
extraction runs. -/
def afterZipPhase (now zip_code area_name : String) (env : Env) : List Record :=
  match env.searchPhase with
  | .error _ => []
  | .ok _ =>
    match env.screenshot with
    | .error e => [criticalErrorRecord now zip_code area_name e]
    | .ok _ => extractPhase now zip_code area_name env.waitProducts

/-- check_instacart_availability (lines 34-256) for one ZIP code, as a
function of the environment.  An exception from the initial `goto`
reaches only the outer handler, which appends the critical-error
sentinel (lines 241-251).  An exception in the ZIP-setting phase is
caught and ignored (lines 104-106: processing continues either way). -/
def check_instacart_availability (now zip_code area_name : String)
    (env : Env) : List Record :=
  match env.gotoHome with
  | .error e => [criticalErrorRecord now zip_code area_name e]
  | .ok _ =>
    match env.zipPhase with
    | .error _ => afterZipPhase now zip_code area_name env
    | .ok _ => afterZipPhase now zip_code area_name env

/-- The files save_results touches, by content: `csv` is the CSV file as
a list of rows (`none` when the file does not exist), `json` likewise
for the JSON file as the record list it holds. -/
structure FS where
  csv : Option (List (List String))
  json : Option (List Record)
deriving DecidableEq

/-- The CSV header row (line 270). -/
def csvFieldnames : List String :=
  ["timestamp", "zip_code", "area", "product", "price", "availability", "store"]

/-- One CSV data row for a record (line 277). -/
def recordRow (r : Record) : List String :=
  [r.timestamp, r.zip_code, r.area, r.product, r.price, r.availability, r.store]

/-- save_results (lines 259-287).  Everything is guarded by
`if all_results:` (line 263), so an empty run touches no file.  The CSV
file is opened in append mode (creating it when absent) and the header
is written only when the file did not previously exist (lines 267-277);
the JSON file is overwritten with exactly the records of this run
(lines 282-283). -/
def save_results (all_results : List Record) (fs : FS) : FS :=
  if all_results.isEmpty then fs
  else
    let newCsv : List (List String) :=
      match fs.csv with
      | some rows => rows ++ all_results.map recordRow
      | none => csvFieldnames :: all_results.map recordRow
    { csv := some newCsv, json := some all_results }

/-- One line of the per-ZIP details section of print_summary
(lines 316-323): the first record for the ZIP code gives its status and
price (lines 318-321), otherwise the explicit no-data line (line 323). -/
inductive ZipLine
  | data (status price : String)
  | noData
deriving DecidableEq

/-- The line print_summary prints for one ZIP code (lines 317-323). -/
def zipLineFor (all_results : List Record) (zip_code : String) : ZipLine :=
  match all_results.filter (fun r => r.zip_code == zip_code) with
  | [] => .noData
  | r :: _ => .data r.availability r.price

/-- The per-ZIP details section of print_summary, as the list of
(ZIP code, line) pairs it prints.  When all_results is empty,
print_summary prints a single no-data-collected message and returns
before reaching the per-ZIP section (lines 297-299), so the section is
empty. -/
def summaryZipSection (all_results : List Record) : List (String × ZipLine) :=
  if all_results.isEmpty then []
  else ZIP_CODES.map (fun za => (za.1, zipLineFor all_results za.1))

/-- The ZIP-code loop of main (lines 341-352): `outcome` gives, per ZIP
code, either the record list check_instacart_availability returned or
the message of the exception it raised; an exception is caught, the code
is skipped, and the loop continues unconditionally (lines 350-352). -/
def mainLoop (outcome : String → String → Except String (List Record)) :
    List Record :=
  ZIP_CODES.foldl
    (fun acc za =>
      match outcome za.1 za.2 with
      | .error _ => acc
      | .ok results => acc ++ results)
    []

/-- The per-ZIP contribution to the list mainLoop accumulates: the
returned records, or nothing when the check raised. -/
def zipContribution (outcome : String → String → Except String (List Record))
    (za : String × String) : List Record :=
  match outcome za.1 za.2 with
  | .error _ => []
  | .ok results => results

/-- Fixture: a product card whose markup holds both an out-of-stock
phrase and an add-to-cart phrase. -/
def c1BothPhrasesCard : ProductElem :=
  { inner_text := .ok "Vital Farms Eggs 12ct",
    price_elem := .ok none,
    inner_html := .ok "<div>Out of Stock</div><button>Add to Cart</button>",
    store_elem := .ok none }

/-- Fixture: an environment whose search phase raised. -/
def searchFailEnv : Env :=
  { gotoHome := .ok (), zipPhase := .ok (),
    searchPhase := .error "Timeout 5000ms exceeded",
    screenshot := .ok (), waitProducts := .ok [] }

/-- Fixture: an environment whose initial page load raised. -/
def gotoFailEnv : Env :=
  { gotoHome := .error "net::ERR_TIMED_OUT at https://www.instacart.com/",
    zipPhase := .ok (), searchPhase := .ok (),
    screenshot := .ok (), waitProducts := .ok [] }

/-- Fixture: another environment whose search phase raised. -/
def c3SearchDownEnv : Env :=
  { gotoHome := .ok (), zipPhase := .ok (),
    searchPhase := .error "Page.fill: Target closed",
    screenshot := .ok (), waitProducts := .ok [] }

/-- Fixture: a product card of a different brand (fails the name filter). -/
def c4OtherBrandCard : ProductElem :=
  { inner_text := .ok "Happy Hens Organic Eggs\n$5.49",
    price_elem := .ok (some "$5.49"),
    inner_html := .ok "<button>Add to Cart</button>",
    store_elem := .ok none }

/-- Fixture: an environment whose only product card fails the name filter. -/
def c4NoMatchEnv : Env :=
  { gotoHome := .ok (), zipPhase := .ok (), searchPhase := .ok (),
    screenshot := .ok (), waitProducts := .ok [c4OtherBrandCard] }

/-- Fixture: an environment whose wait for product cards timed out, with
an exception message longer than 50 characters. -/
def c5WaitFailEnv : Env :=
  { gotoHome := .ok (), zipPhase := .ok (), searchPhase := .ok (),
    screenshot := .ok (),
    waitProducts := .error "Timeout 10000ms exceeded waiting for selector [data-testid=product-card]" }

/-- Fixture: one ordinary in-stock availability record. -/
def sampleRecord : Record :=
  { timestamp := "2025-01-01T08:00:00", zip_code := "94301", area := "Palo Alto, CA",
    product := "Vital Farms Pasture-Raised Eggs", price := "$8.99",
    availability := "In Stock", store := "Multiple Stores" }

/-- Fixture for the C9 scenario exactly as the claim states it: card text
and markup as given, nothing said about sub-elements, so the price and
store queries find nothing. -/
def c9Card : ProductElem :=
  { inner_text := .ok "Vital Farms Pasture-Raised Eggs\n$7.99",
    price_elem := .ok none,
    inner_html := .ok "Add to Cart",
    store_elem := .ok none }

/-- Fixture: the C9 page containing exactly the one card of `c9Card`. -/
def c9Env : Env :=
  { gotoHome := .ok (), zipPhase := .ok (), searchPhase := .ok (),
    screenshot := .ok (), waitProducts := .ok [c9Card] }

/-- Fixture for the amended C9 scenario: the same card, now also carrying
a price sub-element whose text is the displayed price. -/
def c9CardWithPrice : ProductElem :=
  { inner_text := .ok "Vital Farms Pasture-Raised Eggs\n$7.99",
    price_elem := .ok (some "$7.99"),
    inner_html := .ok "Add to Cart",
    store_elem := .ok none }

/-- Fixture: the amended C9 page containing exactly `c9CardWithPrice`. -/
def c9EnvWithPrice : Env :=
  { gotoHome := .ok (), zipPhase := .ok (), searchPhase := .ok (),
    screenshot := .ok (), waitProducts := .ok [c9CardWithPrice] }

/-- Helper: in an association list with pairwise distinct first
components, filtering for the first component of a member keeps exactly
that member. -/
lemma filter_fst_eq_singleton {l : List (String × String)}
    (hnd : (l.map Prod.fst).Nodup) {zc an : String} (hmem : (zc, an) ∈ l) :
    l.filter (fun za => za.1 == zc) = [(zc, an)] := by
  induction l with
  | nil => cases hmem
  | cons hd tl ih =>
    rw [List.map_cons, List.nodup_cons] at hnd
    rcases List.mem_cons.mp hmem with heq | hmem'
    · subst heq
      rw [List.filter_cons_of_pos (by simp)]
      have htl : tl.filter (fun za => za.1 == zc) = [] := by
        rw [List.filter_eq_nil_iff]
        intro za hza hbeq
        have h1 : za.1 ∈ tl.map Prod.fst := List.mem_map_of_mem Prod.fst hza
        rw [beq_iff_eq.mp hbeq] at h1
        exact hnd.1 h1
      rw [htl]
    · have hkey : zc ∈ tl.map Prod.fst := List.mem_map_of_mem Prod.fst hmem'
      have hne : (hd.1 == zc) = false := by
        rw [beq_eq_false_iff_ne]
        intro h
        exact hnd.1 (h ▸ hkey)
      rw [List.filter_cons_of_neg (by simp [hne])]
      exact ih hnd.2 hmem'

/-- Helper: the fold inside mainLoop appends, per ZIP code in order, the
contribution of that code. -/
lemma mainLoop_foldl_eq (outcome : String → String → Except String (List Record)) :
    ∀ (l : List (String × String)) (acc : List Record),
      List.foldl
        (fun acc za =>
          match outcome za.1 za.2 with
          | .error _ => acc
          | .ok results => acc ++ results) acc l
      = acc ++ (l.map (zipContribution outcome)).flatten
  | [], acc => by simp
  | za :: l, acc => by
    rw [List.foldl_cons, mainLoop_foldl_eq outcome l]
    cases h : outcome za.1 za.2 with
    | error e => simp [zipContribution, h]
    | ok results => simp [zipContribution, h]

/-- Helper: mainLoop visits every ZIP code of the table, in order,
whatever each per-ZIP outcome is — the loop never stops early. -/
lemma mainLoop_eq_flatten (outcome : String → String → Except String (List Record)) :
    mainLoop outcome = (ZIP_CODES.map (zipContribution outcome)).flatten := by
  rw [mainLoop, mainLoop_foldl_eq outcome ZIP_CODES []]
  simp

/-- Claim C1: for a product element that passes the name filter and whose
markup was read successfully, the availability of the produced record
follows the priority chain over the lowercased markup: an out-of-stock
or unavailable phrase gives "Out of Stock" (even when an add-to-cart
phrase is also present), else an add-to-cart or add phrase gives
"In Stock", else "Available". -/
theorem c1_availability_classification_priority
    (now zip_code area_name : String) (p : ProductElem) (name html : String)
    (htext : p.inner_text = .ok name)
    (hname : pyIn "vital farms" (pyLower name) = true)
    (hhtml : p.inner_html = .ok html) :
    ∃ r, processProduct now zip_code area_name p = some r ∧
      r.availability =
        (if pyIn "out of stock" (pyLower html) || pyIn "unavailable" (pyLower html) then
          "Out of Stock"
        else if pyIn "add to cart" (pyLower html) || pyIn "add" (pyLower html) then
          "In Stock"
        else
          "Available") := by
  simp only [processProduct, htext, hname, hhtml, if_true]
  exact ⟨_, rfl, rfl⟩

/-- Witness for C1 at a card whose markup holds both an out-of-stock and
an add-to-cart phrase: the record is classified "Out of Stock". -/
theorem c1_witness :
    ∃ r, processProduct "t" "94301" "Palo Alto, CA" c1BothPhrasesCard = some r ∧
      r.availability =
        (if pyIn "out of stock" (pyLower "<div>Out of Stock</div><button>Add to Cart</button>") ||
            pyIn "unavailable" (pyLower "<div>Out of Stock</div><button>Add to Cart</button>") then
          "Out of Stock"
        else if pyIn "add to cart" (pyLower "<div>Out of Stock</div><button>Add to Cart</button>") ||
            pyIn "add" (pyLower "<div>Out of Stock</div><button>Add to Cart</button>") then
          "In Stock"
        else
          "Available") :=
  c1_availability_classification_priority "t" "94301" "Palo Alto, CA" c1BothPhrasesCard
    "Vital Farms Eggs 12ct" "<div>Out of Stock</div><button>Add to Cart</button>"
    rfl (by decide) rfl

/-- Counterexample to claim C2 as stated: a failure in the search phase
(lines 136-139) makes the check return the empty list — zero sentinel
records, not exactly one. -/
theorem c2_counterexample :
    searchFailEnv.searchPhase = .error "Timeout 5000ms exceeded" ∧
    check_instacart_availability "t" "94301" "Palo Alto, CA" searchFailEnv = [] :=
  ⟨rfl, rfl⟩

/-- Claim C2 as amended: no failure ever propagates out of the check and
the ZIP loop visits every code regardless of per-code outcomes; a
failure escaping to the outer handler (initial page load or screenshot)
or failing the product wait yields exactly one sentinel record, while a
search-phase failure yields the empty list instead. -/
theorem c2_failure_containment :
    (∀ outcome, mainLoop outcome = (ZIP_CODES.map (zipContribution outcome)).flatten) ∧
    (∀ now zip_code area_name (env : Env) (e : String),
      (env.gotoHome = .error e →
        check_instacart_availability now zip_code area_name env =
          [criticalErrorRecord now zip_code area_name e]) ∧
      (env.gotoHome = .ok () → env.searchPhase = .error e →
        check_instacart_availability now zip_code area_name env = []) ∧
      (env.gotoHome = .ok () → env.searchPhase = .ok () → env.screenshot = .error e →
        check_instacart_availability now zip_code area_name env =
          [criticalErrorRecord now zip_code area_name e]) ∧
      (env.gotoHome = .ok () → env.searchPhase = .ok () → env.screenshot = .ok () →
        env.waitProducts = .error e →
        check_instacart_availability now zip_code area_name env =
          [scrapingErrorRecord now zip_code area_name e])) := by
  constructor
  · exact mainLoop_eq_flatten
  · intro now zip_code area_name env e
    refine ⟨?_, ?_, ?_, ?_⟩
    · intro h1
      simp [check_instacart_availability, h1]
    · intro h1 h2
      cases hz : env.zipPhase <;>
        simp [check_instacart_availability, afterZipPhase, h1, h2, hz]
    · intro h1 h2 h3
      cases hz : env.zipPhase <;>
        simp [check_instacart_availability, afterZipPhase, h1, h2, h3, hz]
    · intro h1 h2 h3 h4
      cases hz : env.zipPhase <;>
        simp [check_instacart_availability, afterZipPhase, extractPhase, h1, h2, h3, h4, hz]

/-- Witness for C2 as amended: a failed initial page load yields exactly
the one critical-error sentinel record. -/
theorem c2_failure_containment_witness :
    check_instacart_availability "t" "94301" "Palo Alto, CA" gotoFailEnv =
      [criticalErrorRecord "t" "94301" "Palo Alto, CA"
        "net::ERR_TIMED_OUT at https://www.instacart.com/"] :=
  (c2_failure_containment.2 "t" "94301" "Palo Alto, CA" gotoFailEnv
    "net::ERR_TIMED_OUT at https://www.instacart.com/").1 rfl

/-- Claim C3: an exception in the search phase makes the check return the
results accumulated so far — the empty list — and the ZIP loop of main
still visits every postal code. -/
theorem c3_search_failure_partial_results
    (now zip_code area_name e : String) (env : Env)
    (hgoto : env.gotoHome = .ok ())
    (hsearch : env.searchPhase = .error e) :
    check_instacart_availability now zip_code area_name env = [] ∧
    (∀ outcome, mainLoop outcome = (ZIP_CODES.map (zipContribution outcome)).flatten) := by
  constructor
  · cases hz : env.zipPhase <;>
      simp [check_instacart_availability, afterZipPhase, hgoto, hsearch, hz]
  · exact mainLoop_eq_flatten

/-- Witness for C3 at a concrete environment whose search phase raised. -/
theorem c3_witness :
    check_instacart_availability "t" "90210" "Beverly Hills, CA" c3SearchDownEnv = [] ∧
    (∀ outcome, mainLoop outcome = (ZIP_CODES.map (zipContribution outcome)).flatten) :=
  c3_search_failure_partial_results "t" "90210" "Beverly Hills, CA"
    "Page.fill: Target closed" c3SearchDownEnv rfl rfl

/-- Claim C4: when product elements were found but none of their text
contents contain the target product name (case-insensitive), the check
returns exactly one sentinel record with availability "Not Found" and
price "N/A". -/
theorem c4_no_match_not_found_sentinel
    (now zip_code area_name : String) (env : Env) (products : List ProductElem)
    (hgoto : env.gotoHome = .ok ()) (hsearch : env.searchPhase = .ok ())
    (hshot : env.screenshot = .ok ()) (hwait : env.waitProducts = .ok products)
    (_hne : products ≠ [])
    (hnomatch : ∀ p ∈ products, ∀ s, p.inner_text = .ok s →
      pyIn "vital farms" (pyLower s) = false) :
    ∃ r, check_instacart_availability now zip_code area_name env = [r] ∧
      r.availability = "Not Found" ∧ r.price = "N/A" := by
  have hfm : (products.take 10).filterMap (processProduct now zip_code area_name) = [] := by
    rw [List.filterMap_eq_nil_iff]
    intro p hp
    have hp' : p ∈ products := List.take_subset 10 products hp
    cases ht : p.inner_text with
    | error err => simp [processProduct, ht]
    | ok s =>
      have hs := hnomatch p hp' s ht
      simp [processProduct, ht, hs]
  refine ⟨notFoundRecord now zip_code area_name, ?_, rfl, rfl⟩
  cases hz : env.zipPhase <;>
    simp [check_instacart_availability, afterZipPhase, extractPhase,
      hgoto, hsearch, hshot, hwait, hfm, hz]

/-- Witness for C4 at a page whose only card is a different brand. -/
theorem c4_witness :
    ∃ r, check_instacart_availability "t" "10019" "Manhattan, NYC" c4NoMatchEnv = [r] ∧
      r.availability = "Not Found" ∧ r.price = "N/A" := by
  apply c4_no_match_not_found_sentinel "t" "10019" "Manhattan, NYC" c4NoMatchEnv
    [c4OtherBrandCard] rfl rfl rfl rfl (List.cons_ne_nil _ _)
  intro p hp s hs
  rw [List.mem_singleton] at hp
  subst hp
  injection hs with h
  subst h
  decide

/-- Claim C5: when the wait for product-card elements fails with message
`e`, the check returns exactly one sentinel record whose availability is
the scraping-error label followed by `e` truncated to its first 50
characters (so to at most 50 characters). -/
theorem c5_wait_failure_scraping_error
    (now zip_code area_name e : String) (env : Env)
    (hgoto : env.gotoHome = .ok ()) (hsearch : env.searchPhase = .ok ())
    (hshot : env.screenshot = .ok ()) (hwait : env.waitProducts = .error e) :
    check_instacart_availability now zip_code area_name env =
      [scrapingErrorRecord now zip_code area_name e] ∧
    (scrapingErrorRecord now zip_code area_name e).availability =
      "Scraping Error: " ++ pySlice e 50 ∧
    (pySlice e 50).length ≤ 50 := by
  refine ⟨?_, rfl, ?_⟩
  · cases hz : env.zipPhase <;>
      simp [check_instacart_availability, afterZipPhase, extractPhase,
        hgoto, hsearch, hshot, hwait, hz]
  · exact List.length_take_le 50 e.data

/-- Witness for C5 at a concrete timed-out wait with a 73-character
exception message. -/
theorem c5_witness :
    check_instacart_availability "t" "78746" "Austin, TX" c5WaitFailEnv =
      [scrapingErrorRecord "t" "78746" "Austin, TX"
        "Timeout 10000ms exceeded waiting for selector [data-testid=product-card]"] ∧
    (scrapingErrorRecord "t" "78746" "Austin, TX"
        "Timeout 10000ms exceeded waiting for selector [data-testid=product-card]").availability =
      "Scraping Error: " ++
        pySlice "Timeout 10000ms exceeded waiting for selector [data-testid=product-card]" 50 ∧
    (pySlice "Timeout 10000ms exceeded waiting for selector [data-testid=product-card]" 50).length ≤ 50 :=
  c5_wait_failure_scraping_error "t" "78746" "Austin, TX"
    "Timeout 10000ms exceeded waiting for selector [data-testid=product-card]"
    c5WaitFailEnv rfl rfl rfl rfl

/-- Counterexample to claim C6 as stated: with an empty accumulated
result list, print_summary returns before the per-ZIP section
(lines 297-299), so the section holds no line at all for ZIP code 94301
even though that code is in the lookup table. -/
theorem c6_counterexample :
    ("94301", "Palo Alto, CA") ∈ ZIP_CODES ∧
    summaryZipSection [] = [] :=
  ⟨by decide, rfl⟩

/-- Claim C6 as amended: for every nonempty accumulated result list and
every postal code of the lookup table, the per-ZIP section holds exactly
one line for that code, and that line is the status and price of the
first matching record, or the no-data line when no record matches. -/
theorem c6_zip_section_unique_line
    (all_results : List Record) (hne : all_results ≠ [])
    (zc an : String) (hmem : (zc, an) ∈ ZIP_CODES) :
    (summaryZipSection all_results).filter (fun entry => entry.1 == zc)
      = [(zc, zipLineFor all_results zc)] := by
  cases all_results with
  | nil => exact absurd rfl hne
  | cons a l =>
    show (if (a :: l).isEmpty then ([] : List (String × ZipLine))
      else ZIP_CODES.map (fun za => (za.1, zipLineFor (a :: l) za.1))).filter
        (fun entry => entry.1 == zc) = [(zc, zipLineFor (a :: l) zc)]
    rw [if_neg (by simp), List.filter_map]
    show ((ZIP_CODES.filter (fun za => za.1 == zc)).map
        (fun za => (za.1, zipLineFor (a :: l) za.1))) = [(zc, zipLineFor (a :: l) zc)]
    rw [filter_fst_eq_singleton (by decide) hmem]
    rfl

/-- Witness for C6 as amended at a one-record result list and ZIP code
94301. -/
theorem c6_witness :
    (summaryZipSection [sampleRecord]).filter (fun entry => entry.1 == "94301")
      = [("94301", zipLineFor [sampleRecord] "94301")] :=
  c6_zip_section_unique_line [sampleRecord] (List.cons_ne_nil _ _)
    "94301" "Palo Alto, CA" (by decide)

/-- Counterexample to claim C7 as stated: when the second run produced no
records, save_results does nothing (line 263), so the JSON file still
holds the records of the first run instead of the (empty) record list of
the second run. -/
theorem c7_counterexample :
    (save_results [] (save_results [sampleRecord] { csv := none, json := none })).json
      = some [sampleRecord] ∧
    ([sampleRecord] : List Record) ≠ [] :=
  ⟨rfl, by simp⟩

/-- Claim C7 as amended: provided the second run produced at least one
record, running the batch twice leaves the JSON file holding exactly the
record list of the second run, whatever the first run wrote. -/
theorem c7_json_overwrite
    (run1 run2 : List Record) (fs : FS) (hne : run2 ≠ []) :
    (save_results run2 (save_results run1 fs)).json = some run2 := by
  cases run2 with
  | nil => exact absurd rfl hne
  | cons a l => rfl

/-- Witness for C7 as amended: an empty first run then a one-record
second run leave exactly that record in the JSON file. -/
theorem c7_witness :
    (save_results [sampleRecord] (save_results [] { csv := none, json := none })).json
      = some [sampleRecord] :=
  c7_json_overwrite [] [sampleRecord] { csv := none, json := none }
    (List.cons_ne_nil _ _)

/-- Counterexample to claim C8 as stated: two runs that both produced
zero records never create the CSV file, so the file does not hold
exactly one header row — it does not exist at all. -/
theorem c8_counterexample :
    save_results [] (save_results [] { csv := none, json := none })
      = { csv := none, json := none } :=
  rfl

/-- Claim C8 as amended: starting from no CSV file, provided at least one
of the two runs produced a record, running the batch twice leaves the
CSV file holding the header row exactly once (first), followed by one
data row per record of both runs in order; in particular its row count
is one plus the sum of both run record counts. -/
theorem c8_csv_append_across_runs
    (run1 run2 : List Record) (hne : run1 ≠ [] ∨ run2 ≠ []) :
    (save_results run2 (save_results run1 { csv := none, json := none })).csv
      = some (csvFieldnames :: (run1 ++ run2).map recordRow) ∧
    (csvFieldnames :: (run1 ++ run2).map recordRow).length
      = 1 + (run1.length + run2.length) := by
  constructor
  · cases run1 with
    | nil =>
      cases run2 with
      | nil => simp at hne
      | cons b m => rfl
    | cons a l =>
      cases run2 with
      | nil => simp [save_results]
      | cons b m => simp [save_results, List.map_append]
  · simp [List.length_append, List.length_map]
    omega

/-- Witness for C8 as amended at two one-record runs: the CSV ends with
one header row and two data rows. -/
theorem c8_witness :
    (save_results [sampleRecord]
        (save_results [sampleRecord] { csv := none, json := none })).csv
      = some (csvFieldnames :: ([sampleRecord] ++ [sampleRecord]).map recordRow) ∧
    (csvFieldnames :: ([sampleRecord] ++ [sampleRecord]).map recordRow).length
      = 1 + ([sampleRecord].length + [sampleRecord].length) :=
  c8_csv_append_across_runs [sampleRecord] [sampleRecord]
    (Or.inl (List.cons_ne_nil _ _))

/-- Counterexample to claim C9 as stated: a page satisfying exactly the
stated preconditions — one card, text "Vital Farms Pasture-Raised Eggs"
newline "$7.99", markup containing "Add to Cart" — but without a
price-labeled sub-element.  The code reads the price only from a price
sub-element (lines 166-172), never from the card text, so the produced
record has price "N/A", not "$7.99" as the claim expects. -/
theorem c9_counterexample :
    pyIn "Add to Cart" "Add to Cart" = true ∧
    check_instacart_availability "t" "10019" "Manhattan, NYC" c9Env =
      [{ timestamp := "t", zip_code := "10019", area := "Manhattan, NYC",
         product := "Vital Farms Pasture-Raised Eggs", price := "N/A",
         availability := "In Stock", store := "Multiple Stores" }] ∧
    ("N/A" : String) ≠ "$7.99" :=
  ⟨by decide, by decide, by decide⟩

/-- Claim C9 as amended: in the stated scenario with the card also
carrying a price sub-element whose text is "$7.99" (and no store
sub-element and no out-of-stock phrase in the markup), the check
produces exactly the expected record: zip_code 10019, area Manhattan,
NYC, product "Vital Farms Pasture-Raised Eggs", price "$7.99",
availability "In Stock", store "Multiple Stores". -/
theorem c9_scenario_record :
    check_instacart_availability "t" "10019" "Manhattan, NYC" c9EnvWithPrice =
      [{ timestamp := "t", zip_code := "10019", area := "Manhattan, NYC",
         product := "Vital Farms Pasture-Raised Eggs", price := "$7.99",
         availability := "In Stock", store := "Multiple Stores" }] := by
  decide

/-- Claim C10: save_results on an empty record list performs no file
operation at all — the whole file state, CSV and JSON alike, is left
exactly as it was, so a stale JSON snapshot from a previous run stays in
place. -/
theorem c10_empty_run_touches_no_file (fs : FS) : save_results [] fs = fs := rfl

end VitalFarms
